import Mathlib

/-!
Verification of the cookie scanner (src/parser.py).

The Python module has one pure core, `_get_cookie_security_recommendations`,
which maps one parsed cookie record to a list of recommendation strings, and
one orchestrator, `scan_cookies`, which issues an HTTP request, builds a
cookie-info record per received cookie, aggregates recommendations into a
set rendered as a sorted list, writes a report file `doc.txt`, and returns a
result dictionary (a success shape or an error shape).

Shallow embedding choices:
  - Python dictionaries with fixed keys become structures.
  - The external library calls become parameters of `scan_cookies`:
    `requests.get` plus cookie parsing is summarised by a `RequestOutcome`
    value, `datetime.now().isoformat()` by the `scan_time` / `error_time`
    string parameters (the success path stamps the time before the request,
    the error handlers stamp a fresh time), `datetime.fromtimestamp`
    composed with `isoformat` by the `iso : Int → String` parameter, and
    the success or failure of the single `doc.txt` write performed in a run
    by the `writeOk : Bool` parameter with `writeErr` as the text of the
    exception such a failed write raises.
  - `ScanOutput.docFile` is the content successfully written to `doc.txt`
    in this run (`none` when no write happens or the write raises), and
    `ScanOutput.consoleLog` is what the run prints to the console.
  - The recommendation message constants are the exact Russian strings of
    the source; the specification quotes them in English translation.
-/

namespace CookieScanner

/-- The `cookie_info` dictionary built inside `scan_cookies` and consumed by
`_get_cookie_security_recommendations` (which reads only the keys `secure`,
`httponly` and `samesite_value` via `dict.get`). An absent `samesite_value`
and a Python `None` value both come out of `dict.get` as `None`, so both are
`Option.none` here. -/
structure CookieInfo where
  name : String
  value : Option String
  domain : String
  path : String
  secure : Bool
  httponly : Bool
  samesite_value : Option String
  expires : Option String
  deriving DecidableEq, Repr

/-- Python truthiness of an optional string: `None` and `""` are falsy,
every other string is truthy. -/
def optStrTruthy : Option String → Bool
  | none => false
  | some s => s != ""

/-- The string appended when the Secure flag is missing. -/
def secureRecommendation : String := "Установить флаг Secure"

/-- The string appended when the HttpOnly flag is missing. -/
def httpOnlyRecommendation : String := "Установить флаг HttpOnly"

/-- The string appended when the SameSite attribute is not set. -/
def sameSiteRecommendation : String :=
  "Установить атрибут SameSite (рекомендуемые значения: \"Strict\" или \"Lax\")"

/-- Embedding of `_get_cookie_security_recommendations`: starts from an empty
list and appends one fixed string per failed check, in the fixed order
Secure, HttpOnly, SameSite. -/
def _get_cookie_security_recommendations (cookie_attributes : CookieInfo) : List String :=
  (if !cookie_attributes.secure then [secureRecommendation] else []) ++
  (if !cookie_attributes.httponly then [httpOnlyRecommendation] else []) ++
  (if !(optStrTruthy cookie_attributes.samesite_value) then [sameSiteRecommendation] else [])

/-- One cookie as delivered by the HTTP client (`requests.cookies.Cookie`):
the fields the source reads, with `_rest` as an association list from
attribute names to their stored values (a stored value may itself be the
Python `None`, hence `Option String`). -/
structure RawCookie where
  name : String
  value : Option String
  domain : String
  path : String
  secure : Bool
  rest : List (String × Option String)
  expires : Option Int
  deriving DecidableEq, Repr

/-- `_rest[k]` as `some v` when the key is present with stored value `v`,
`none` when the key is absent. -/
def restLookup (rest : List (String × Option String)) (k : String) : Option (Option String) :=
  (rest.find? (fun p => p.1 == k)).map Prod.snd

/-- Python `_rest.get(k, default)`: the stored value when the key is present
(even when that value is `None`), otherwise the default. -/
def restGet (rest : List (String × Option String)) (k : String)
    (default : Option String) : Option String :=
  match restLookup rest k with
  | some v => v
  | none => default

/-- Python `k in _rest`. -/
def restContains (rest : List (String × Option String)) (k : String) : Bool :=
  (restLookup rest k).isSome

/-- Python truthiness of an optional integer: `None` and `0` are falsy. -/
def optIntTruthy : Option Int → Bool
  | none => false
  | some t => t != 0

/-- The `cookie_info` dictionary built for one raw cookie inside the scan
loop: `samesite_val = _rest.get(SameSite, _rest.get(samesite))`, HttpOnly
presence by key membership in `_rest`, and `expires` rendered through
`datetime.fromtimestamp(...).isoformat()` only when truthy. -/
def buildCookieInfo (iso : Int → String) (cookie : RawCookie) : CookieInfo :=
  let samesite_val := restGet cookie.rest "SameSite" (restGet cookie.rest "samesite" none)
  { name := cookie.name
    value := cookie.value
    domain := cookie.domain
    path := cookie.path
    secure := cookie.secure
    httponly := restContains cookie.rest "HttpOnly" || restContains cookie.rest "httponly"
    samesite_value := samesite_val
    expires := if optIntTruthy cookie.expires then cookie.expires.map iso else none }

/-- One entry of `results[cookie_details]`: the cookie-info record together
with the `recommendations` list stored into it after evaluation. -/
structure CookieDetail where
  info : CookieInfo
  recommendations : List String
  deriving DecidableEq, Repr

/-- The inner loop `for rec in recommendations: set.add(rec)`. -/
def addRecs (acc : Finset String) (recs : List String) : Finset String :=
  recs.foldl (fun s r => insert r s) acc

/-- One iteration of the scan loop body: build the cookie info, evaluate it,
append the detail record, and (guarded by `if recommendations:`) add every
recommendation to the site-wide set. -/
def scanStep (iso : Int → String) (acc : List CookieDetail × Finset String)
    (cookie : RawCookie) : List CookieDetail × Finset String :=
  let cookie_info := buildCookieInfo iso cookie
  let recommendations := _get_cookie_security_recommendations cookie_info
  (acc.1 ++ [⟨cookie_info, recommendations⟩],
   if recommendations.isEmpty then acc.2 else addRecs acc.2 recommendations)

/-- The whole scan loop over the cookie jar, starting from the empty detail
list and the empty `security_recommendations` set. -/
def scanLoop (iso : Int → String) (cookies : List RawCookie) :
    List CookieDetail × Finset String :=
  cookies.foldl (scanStep iso) ([], ∅)

/-- `sorted(list(results[security_recommendations]))`: the set rendered as a
list in ascending code-point lexicographic order (the order of `String`,
which compares character lists by code point, as Python does). -/
def sortedSiteRecommendations (s : Finset String) : List String :=
  s.sort (· ≤ ·)

/-- Python `str` of a boolean, as interpolated into the report. -/
def pyBool : Bool → String
  | true => "True"
  | false => "False"

/-- The per-cookie block of the success report. -/
def cookieBlock (idx : Nat) (cookie_detail : CookieDetail) : String :=
  "--- Cookie #" ++ toString (idx + 1) ++ " ---\n" ++
  "Имя: " ++ cookie_detail.info.name ++ "\n" ++
  "Домен: " ++ cookie_detail.info.domain ++ "\n" ++
  "Путь: " ++ cookie_detail.info.path ++ "\n" ++
  "Атрибут Secure: " ++ pyBool cookie_detail.info.secure ++ "\n" ++
  "Атрибут HttpOnly: " ++ pyBool cookie_detail.info.httponly ++ "\n" ++
  "Атрибут SameSite: " ++
    (if optStrTruthy cookie_detail.info.samesite_value
      then cookie_detail.info.samesite_value.getD "" else "Не установлен") ++ "\n" ++
  "Истекает (Expires/Max-Age): " ++
    (if optStrTruthy cookie_detail.info.expires
      then cookie_detail.info.expires.getD "" else "Сессионная (или не указано)") ++ "\n" ++
  (if cookie_detail.recommendations.isEmpty then ""
   else "Рекомендации по улучшению безопасности:\n" ++
     String.join (cookie_detail.recommendations.map (fun r => "  - " ++ r ++ "\n"))) ++
  "\n"

/-- The whole success layout of `doc.txt`: header lines, the no-cookies
sentence when the detail list is empty, one block per cookie, then the
site-wide recommendations section (or the fixed no-issues sentence). -/
def successLayout (url scan_time : String) (status_code : Nat) (cookies_found : Nat)
    (cookie_details : List CookieDetail) (security_recommendations : List String) : String :=
  "Результаты сканирования cookie для URL: " ++ url ++ "\n" ++
  "Время сканирования: " ++ scan_time ++ "\n" ++
  "HTTP Status Code ответа: " ++ toString status_code ++ "\n" ++
  "Всего найдено cookie: " ++ toString cookies_found ++ "\n\n" ++
  (if cookie_details.isEmpty then "Cookies не найдены или сервер их не установил.\n" else "") ++
  String.join ((cookie_details.enum).map (fun p => cookieBlock p.1 p.2)) ++
  (if security_recommendations.isEmpty then
    "\n--- Общие рекомендации по безопасности для сайта ---\n" ++
    "Для проанализированных cookie не найдено очевидных упущений в базовых флагах безопасности (Secure, HttpOnly, SameSite).\n"
   else
    "\n--- Общие рекомендации по безопасности для сайта ---\n" ++
    String.join (security_recommendations.map (fun r => "- " ++ r ++ "\n")))

/-- The failure layout of `doc.txt` written in the request-error handler. -/
def errorLayout (url time error : String) : String :=
  "Ошибка сканирования для URL: " ++ url ++ "\n" ++
  "Время: " ++ time ++ "\n" ++
  "Ошибка: " ++ error ++ "\n"

/-- The `error` field of the request-failure report. -/
def requestErrorMessage (e : String) : String := "Ошибка при запросе к URL: " ++ e

/-- The `error` field of the generic (unexpected-failure) report. -/
def unexpectedErrorMessage (e : String) : String := "Непредвиденная ошибка: " ++ e

/-- The outcome of `requests.get` + `raise_for_status` + cookie extraction:
a status code with the parsed cookie jar, a `requests.exceptions.
RequestException` (network error, DNS failure, connection refused, timeout,
or 4xx/5xx raised as an error), or any other exception raised inside the
`try` block before the success write. -/
inductive RequestOutcome where
  | success (status_code : Nat) (cookies : List RawCookie)
  | requestException (message : String)
  | otherException (message : String)
  deriving DecidableEq, Repr

/-- The dictionary `scan_cookies` returns: the success shape with
`cookie_details` and `security_recommendations`, or the error shape that has
an `error` key and no `cookie_details` key. -/
inductive ScanReturn where
  | ok (url scan_time : String) (cookies_found : Nat)
      (cookie_details : List CookieDetail) (security_recommendations : List String)
  | err (error url scan_time : String)
  deriving DecidableEq, Repr

/-- What one run of `scan_cookies` produces: the returned dictionary, the
content successfully written to `doc.txt` this run (if any), and the console
output (if any). -/
structure ScanOutput where
  ret : ScanReturn
  docFile : Option String
  consoleLog : Option String
  deriving DecidableEq, Repr

/-- Embedding of `scan_cookies`.

On a successful request the loop runs, the set is sorted, and `doc.txt` is
written with the success layout; if that write raises, the exception falls
through to the generic `except Exception` handler, which returns the generic
error shape (stamped with a fresh time) and writes nothing. On a
`RequestException` the handler builds the error shape, tries to write the
failure layout, and on a failure of that write prints a console line and
still returns the error shape. Any other exception inside the `try` block
returns the generic error shape without touching `doc.txt`. -/
def scan_cookies (iso : Int → String) (url scan_time error_time : String)
    (outcome : RequestOutcome) (writeOk : Bool) (writeErr : String) : ScanOutput :=
  match outcome with
  | .success status_code cookies =>
      let looped := scanLoop iso cookies
      let security_recommendations := sortedSiteRecommendations looped.2
      if writeOk then
        { ret := .ok url scan_time cookies.length looped.1 security_recommendations
          docFile := some (successLayout url scan_time status_code cookies.length
            looped.1 security_recommendations)
          consoleLog := none }
      else
        { ret := .err (unexpectedErrorMessage writeErr) url error_time
          docFile := none
          consoleLog := none }
  | .requestException e =>
      if writeOk then
        { ret := .err (requestErrorMessage e) url error_time
          docFile := some (errorLayout url error_time (requestErrorMessage e))
          consoleLog := none }
      else
        { ret := .err (requestErrorMessage e) url error_time
          docFile := none
          consoleLog := some ("Критическая ошибка при записи лога: " ++ writeErr) }
  | .otherException e =>
      { ret := .err (unexpectedErrorMessage e) url error_time
        docFile := none
        consoleLog := none }

/-- The per-cookie recommendation list of one raw cookie, as computed inside
the scan loop. -/
def recsOf (iso : Int → String) (cookie : RawCookie) : List String :=
  _get_cookie_security_recommendations (buildCookieInfo iso cookie)

/-- The `cookie_details` entry of one raw cookie. -/
def detailOf (iso : Int → String) (cookie : RawCookie) : CookieDetail :=
  ⟨buildCookieInfo iso cookie, recsOf iso cookie⟩

/-- Scenario-A cookie: name `a`, Secure and HttpOnly absent, SameSite unset. -/
def cookieA : CookieInfo :=
  { name := "a", value := none, domain := "", path := "", secure := false,
    httponly := false, samesite_value := none, expires := none }

/-- A cookie failing all three checks, used to exercise the fixed output
order of the evaluator. -/
def weakCookie : CookieInfo :=
  { name := "weak", value := none, domain := "", path := "", secure := false,
    httponly := false, samesite_value := none, expires := none }

/-- A raw cookie with no security attributes at all. -/
def rawA : RawCookie :=
  { name := "sessionid", value := some "v1", domain := "example.com", path := "/",
    secure := false, rest := [], expires := none }

/-- A raw cookie with HttpOnly and SameSite present in `_rest`. -/
def rawB : RawCookie :=
  { name := "csrftoken", value := some "v2", domain := "example.com", path := "/",
    secure := true, rest := [("HttpOnly", none), ("SameSite", some "Lax")],
    expires := some 1700000000 }

/-- A fixed stand-in for `datetime.fromtimestamp(...).isoformat()` used when a
concrete run of the embedding is evaluated. -/
def iso0 : Int → String := fun _ => "2024-01-01T00:00:00"

theorem addRecs_eq (acc : Finset String) (recs : List String) :
    addRecs acc recs = acc ∪ recs.toFinset := by
  induction recs generalizing acc with
  | nil => simp [addRecs]
  | cons r rs ih =>
      have h : addRecs acc (r :: rs) = addRecs (insert r acc) rs := rfl
      rw [h, ih, List.toFinset_cons, Finset.insert_union, Finset.union_insert]

theorem foldl_scanStep (iso : Int → String) (cookies : List RawCookie)
    (acc : List CookieDetail × Finset String) :
    cookies.foldl (scanStep iso) acc =
      (acc.1 ++ cookies.map (detailOf iso),
       acc.2 ∪ (cookies.flatMap (recsOf iso)).toFinset) := by
  induction cookies generalizing acc with
  | nil => simp
  | cons c l ih =>
      rw [List.foldl_cons, ih]
      have h1 : (scanStep iso acc c).1 = acc.1 ++ [detailOf iso c] := by
        simp [scanStep, detailOf, recsOf]
      have h2 : (scanStep iso acc c).2 = acc.2 ∪ (recsOf iso c).toFinset := by
        unfold scanStep recsOf
        rcases h : _get_cookie_security_recommendations (buildCookieInfo iso c) with _ | ⟨r, rs⟩ <;>
          simp [h, addRecs_eq]
      rw [h1, h2]
      simp [List.flatMap_cons, List.toFinset_append, Finset.union_assoc]

theorem scanLoop_fst (iso : Int → String) (cookies : List RawCookie) :
    (scanLoop iso cookies).1 = cookies.map (detailOf iso) := by
  simp [scanLoop, foldl_scanStep]

theorem scanLoop_snd (iso : Int → String) (cookies : List RawCookie) :
    (scanLoop iso cookies).2 = (cookies.flatMap (recsOf iso)).toFinset := by
  simp [scanLoop, foldl_scanStep]

theorem recs_sublist (c : CookieInfo) :
    (_get_cookie_security_recommendations c).Sublist
      [secureRecommendation, httpOnlyRecommendation, sameSiteRecommendation] := by
  cases hs : c.secure <;> cases hh : c.httponly <;>
    cases ht : optStrTruthy c.samesite_value <;>
    simp only [_get_cookie_security_recommendations, hs, hh, ht] <;> decide

theorem sameSite_ne_secure : sameSiteRecommendation ≠ secureRecommendation := by decide

theorem sameSite_ne_httpOnly : sameSiteRecommendation ≠ httpOnlyRecommendation := by decide

/-- Claim C3, counterexample: on the scenario-A cookie the evaluator does not
return the English strings the claim quotes — the source constants are the
Russian originals. -/
theorem c3_counterexample :
    _get_cookie_security_recommendations cookieA ≠
      ["Set the Secure flag", "Set the HttpOnly flag",
       "Set the SameSite attribute (recommended: \x27Strict\x27 or \x27Lax\x27)"] := by
  decide

/-- Claim C3 (amended): for the cookie with name `a`, `secure = false`,
`http_only = false` and `same_site` unset, the evaluator returns exactly the
three-element list [Secure recommendation, HttpOnly recommendation, SameSite
recommendation] — the source message constants, which the specification
quotes in English translation — in exactly this order. -/
theorem c3_theorem :
    _get_cookie_security_recommendations cookieA =
      [secureRecommendation, httpOnlyRecommendation, sameSiteRecommendation] := by
  decide

/-- Claim C6: the Secure recommendation is in the evaluator output exactly
when the cookie has `secure = false`. -/
theorem c6_theorem (c : CookieInfo) :
    secureRecommendation ∈ _get_cookie_security_recommendations c ↔ c.secure = false := by
  cases hs : c.secure <;> cases hh : c.httponly <;>
    cases ht : optStrTruthy c.samesite_value <;>
    simp only [_get_cookie_security_recommendations, hs, hh, ht] <;> decide

/-- Claim C7: the SameSite recommendation is in the evaluator output exactly
when `samesite_value` is unset (`none`, covering both an absent key and the
Python `None` value) or the empty string; moreover an unset `samesite_value`
and the empty string produce identical evaluator output. Any non-empty value
(including the string `None`) is neither `none` nor `some ""`, so it never
yields the recommendation. -/
theorem c7_theorem (c : CookieInfo) :
    (sameSiteRecommendation ∈ _get_cookie_security_recommendations c ↔
      (c.samesite_value = none ∨ c.samesite_value = some "")) ∧
    _get_cookie_security_recommendations { c with samesite_value := none } =
      _get_cookie_security_recommendations { c with samesite_value := some "" } := by
  constructor
  · cases hv : c.samesite_value with
    | none =>
        cases hs : c.secure <;> cases hh : c.httponly <;>
          simp only [_get_cookie_security_recommendations, hs, hh, hv, optStrTruthy] <;> decide
    | some s =>
        by_cases hs0 : s = ""
        · subst hs0
          cases hs : c.secure <;> cases hh : c.httponly <;>
            simp only [_get_cookie_security_recommendations, hs, hh, hv, optStrTruthy] <;> decide
        · have ht : optStrTruthy c.samesite_value = true := by
            simp [optStrTruthy, hv, hs0]
          cases hs : c.secure <;> cases hh : c.httponly <;>
            simp only [_get_cookie_security_recommendations, hs, hh, hv, ht] <;>
            simp [hs0, optStrTruthy, sameSite_ne_secure, sameSite_ne_httpOnly]
  · rfl

/-- Claim C8: the evaluator output is always an in-order sublist of the fixed
list [Secure, HttpOnly, SameSite], and a cookie failing all three checks gets
exactly that three-element list. -/
theorem c8_theorem (c : CookieInfo) :
    (_get_cookie_security_recommendations c).Sublist
      [secureRecommendation, httpOnlyRecommendation, sameSiteRecommendation] ∧
    (c.secure = false → c.httponly = false → optStrTruthy c.samesite_value = false →
      _get_cookie_security_recommendations c =
        [secureRecommendation, httpOnlyRecommendation, sameSiteRecommendation]) := by
  refine ⟨recs_sublist c, fun hs hh ht => ?_⟩
  simp [_get_cookie_security_recommendations, hs, hh, ht]

/-- Witness for C8: the all-checks-failing cookie `weakCookie` satisfies the
hypotheses, and the conclusion evaluates on it. -/
theorem c8_witness :
    _get_cookie_security_recommendations weakCookie =
      [secureRecommendation, httpOnlyRecommendation, sameSiteRecommendation] :=
  (c8_theorem weakCookie).2 rfl rfl rfl

/-- Claim C10: every evaluator output is duplicate-free, has at most three
elements and is a subsequence of the fixed recommendation list; consequently
the site-wide recommendation set accumulated by the scan loop is contained in
the set of those three strings. -/
theorem c10_theorem :
    (∀ c : CookieInfo,
      (_get_cookie_security_recommendations c).Nodup ∧
      (_get_cookie_security_recommendations c).length ≤ 3 ∧
      (_get_cookie_security_recommendations c).Sublist
        [secureRecommendation, httpOnlyRecommendation, sameSiteRecommendation]) ∧
    (∀ (iso : Int → String) (cookies : List RawCookie),
      (scanLoop iso cookies).2 ⊆
        ({secureRecommendation, httpOnlyRecommendation, sameSiteRecommendation} :
          Finset String)) := by
  constructor
  · intro c
    have hsub := recs_sublist c
    refine ⟨List.Nodup.sublist hsub (by decide), ?_, hsub⟩
    simpa using hsub.length_le
  · intro iso cookies s hs
    rw [scanLoop_snd, List.mem_toFinset, List.mem_flatMap] at hs
    obtain ⟨c, -, hmem⟩ := hs
    have := (recs_sublist (buildCookieInfo iso c)).subset hmem
    simpa [Finset.mem_insert] using this

/-- Claim C4: the site-wide recommendation list produced by the scan loop is
sorted ascending in code-point lexicographic order, duplicate-free, and its
members are exactly the union of the per-cookie recommendation strings. -/
theorem c4_theorem (iso : Int → String) (cookies : List RawCookie) :
    List.Sorted (· ≤ ·) (sortedSiteRecommendations (scanLoop iso cookies).2) ∧
    (sortedSiteRecommendations (scanLoop iso cookies).2).Nodup ∧
    ∀ s : String,
      s ∈ sortedSiteRecommendations (scanLoop iso cookies).2 ↔
        ∃ c ∈ cookies, s ∈ _get_cookie_security_recommendations (buildCookieInfo iso c) := by
  refine ⟨Finset.sort_sorted _ _, Finset.sort_nodup _ _, fun s => ?_⟩
  rw [sortedSiteRecommendations, Finset.mem_sort, scanLoop_snd, List.mem_toFinset,
    List.mem_flatMap]
  simp [recsOf]

/-- Claim C5: permuting the input cookie sequence never changes the sorted
site-wide recommendation list. -/
theorem c5_theorem (iso : Int → String) (l l' : List RawCookie) (h : l.Perm l') :
    sortedSiteRecommendations (scanLoop iso l).2 =
      sortedSiteRecommendations (scanLoop iso l').2 := by
  unfold sortedSiteRecommendations
  rw [scanLoop_snd, scanLoop_snd,
    List.toFinset_eq_of_perm _ _ (h.flatMap_right (recsOf iso))]

/-- Witness for C5: the two-cookie list `[rawA, rawB]` and its swap. -/
theorem c5_witness :
    sortedSiteRecommendations (scanLoop iso0 [rawA, rawB]).2 =
      sortedSiteRecommendations (scanLoop iso0 [rawB, rawA]).2 :=
  c5_theorem iso0 _ _ (List.Perm.swap rawB rawA [])

/-- Claim C1, counterexample: on a successful request with an empty cookie
jar, the run whose `doc.txt` write succeeds returns the computed success
report, while the identical run whose write fails returns the generic error
report instead — the write failure does replace the computed success report. -/
theorem c1_counterexample :
    (scan_cookies iso0 "https://example.com" "t1" "t2"
        (RequestOutcome.success 200 []) true "boom").ret =
      ScanReturn.ok "https://example.com" "t1" 0 [] [] ∧
    (scan_cookies iso0 "https://example.com" "t1" "t2"
        (RequestOutcome.success 200 []) false "boom").ret =
      ScanReturn.err "Непредвиденная ошибка: boom" "https://example.com" "t2" := by
  refine ⟨?_, rfl⟩
  simp [scan_cookies, scanLoop, sortedSiteRecommendations, Finset.sort_empty]

/-- Claim C1 (amended): a failure to write the error-path `doc.txt` is logged
to the console and swallowed, and the scan still returns the already-computed
`ErrorReport`; but on the success path a write failure is caught by the
generic exception handler, so the scan returns a generic `ErrorReport`
instead of the computed `ScanReport`. -/
theorem c1_theorem (iso : Int → String) (url t1 t2 e w : String)
    (status : Nat) (cookies : List RawCookie) :
    ((scan_cookies iso url t1 t2 (RequestOutcome.requestException e) false w).ret =
        ScanReturn.err (requestErrorMessage e) url t2 ∧
      (scan_cookies iso url t1 t2 (RequestOutcome.requestException e) false w).consoleLog =
        some ("Критическая ошибка при записи лога: " ++ w)) ∧
    (scan_cookies iso url t1 t2 (RequestOutcome.success status cookies) false w).ret =
      ScanReturn.err (unexpectedErrorMessage w) url t2 :=
  ⟨⟨rfl, rfl⟩, rfl⟩

/-- Claim C2, counterexample: an unexpected (non-request) exception makes the
scan return the generic error report without writing `doc.txt` at all. -/
theorem c2_counterexample :
    (scan_cookies iso0 "https://example.com" "t1" "t2"
        (RequestOutcome.otherException "boom") true "w").docFile = none := rfl

/-- Claim C2 (amended): `doc.txt` is written with the success layout on a
successful scan and with the failure layout on a request failure, provided
the write itself succeeds; on an unexpected failure no write is attempted,
and when the write raises no content is produced either. -/
theorem c2_theorem (iso : Int → String) (url t1 t2 e w : String)
    (status : Nat) (cookies : List RawCookie) (wk : Bool) :
    (scan_cookies iso url t1 t2 (RequestOutcome.success status cookies) true w).docFile =
      some (successLayout url t1 status cookies.length (scanLoop iso cookies).1
        (sortedSiteRecommendations (scanLoop iso cookies).2)) ∧
    (scan_cookies iso url t1 t2 (RequestOutcome.requestException e) true w).docFile =
      some (errorLayout url t2 (requestErrorMessage e)) ∧
    (scan_cookies iso url t1 t2 (RequestOutcome.otherException e) wk w).docFile = none ∧
    (scan_cookies iso url t1 t2 (RequestOutcome.success status cookies) false w).docFile =
      none ∧
    (scan_cookies iso url t1 t2 (RequestOutcome.requestException e) false w).docFile =
      none :=
  ⟨rfl, rfl, rfl, rfl, rfl⟩

/-- Claim C9: on a request failure (any `requests.exceptions.
RequestException`, which covers network errors, DNS failures, refused
connections, timeouts and 4xx/5xx statuses raised by `raise_for_status`),
the scan returns the error shape carrying the descriptive message, the url
and a scan time; that shape is never the success shape (so it has no
`cookie_details` key), and `doc.txt` receives the error header layout. -/
theorem c9_theorem (iso : Int → String) (url t1 t2 e w : String) :
    (scan_cookies iso url t1 t2 (RequestOutcome.requestException e) true w).ret =
      ScanReturn.err (requestErrorMessage e) url t2 ∧
    (scan_cookies iso url t1 t2 (RequestOutcome.requestException e) true w).docFile =
      some (errorLayout url t2 (requestErrorMessage e)) ∧
    ∀ (u t : String) (n : Nat) (d : List CookieDetail) (r : List String),
      (scan_cookies iso url t1 t2 (RequestOutcome.requestException e) true w).ret ≠
        ScanReturn.ok u t n d r := by
  refine ⟨rfl, rfl, ?_⟩
  intro u t n d r h
  exact ScanReturn.noConfusion h

end CookieScanner
